import Mathlib

/-!
Verification of the chat-session orchestrator (Telegram / Copilot bot).

The definitions below are a shallow embedding of the TypeScript source:
`src/utils.ts` (splitLongMessage, parseModelIndex, parseDirectoryIndex,
pickSessionEmoji) and `src/index.ts` (the per-chat `ChatState` record, the
`startSession` lifecycle function, the `/reset` command handler, the
`bot.on('message')` prompt dispatcher, the `session.idle` case of
`handleSessionEvent`, and the event sequencer `enqueueSessionEvent` /
`processEventQueue`).

Modelling conventions:
* JS strings are modelled as `List Char` where index arithmetic matters
  (`splitLongMessage`) and as `String` elsewhere.
* External I/O (Telegram sends, the Copilot SDK) is abstracted: a handler
  returns the list of prompts it passed to `session.send` plus a tag for the
  user-visible reply; whether an awaited call succeeds or throws is an
  explicit boolean/outcome parameter.
* `Math.random()`-based choices take the chosen index as an explicit
  parameter (reduced mod the pool size).
* The float comparison `lastNewline > maxLen * 0.8` is rendered as the exact
  rational comparison `5 * lastNewline > 4 * maxLen`.
-/

/-- JS `String.prototype.lastIndexOf` for a single character on a
`List Char`: index of the last occurrence, `-1` when absent. -/
def jsLastIndexOf : List Char → Char → Int
  | [], _ => -1
  | x :: xs, c =>
      let r := jsLastIndexOf xs c
      if 0 ≤ r then r + 1
      else if x = c then 0 else -1

/-- Length of the chunk one iteration of `splitLongMessage`'s loop cuts off:
`maxLen` by default (`chunk = remaining.slice(0, maxLen)`), re-cut to
`lastNewline + 1` when the message is longer than `maxLen` and the chunk's
last newline lies past 0.8 · maxLen. -/
def splitChunkLen (maxLen : Nat) (remaining : List Char) : Nat :=
  if maxLen < remaining.length then
    let lastNewline := jsLastIndexOf (remaining.take maxLen) '\n'
    if 4 * (maxLen : Int) < 5 * lastNewline then lastNewline.toNat + 1
    else maxLen
  else maxLen

/-- One iteration of `splitLongMessage`'s `while` loop, with explicit fuel
(the JS loop runs while `remaining.length > 0`; each iteration removes at
least one character when `maxLen ≥ 1`, so `remaining.length` is enough fuel).
Mirrors src/utils.ts lines 153-169. -/
def splitLongMessageAux (maxLen : Nat) : Nat → List Char → List (List Char)
  | 0, _ => []
  | _, [] => []
  | fuel + 1, remaining =>
      let chunk := remaining.take (splitChunkLen maxLen remaining)
      chunk :: splitLongMessageAux maxLen fuel (remaining.drop chunk.length)

/-- `splitLongMessage(text, maxLen)` from src/utils.ts: split a message into
chunks of at most `maxLen` characters, preferring a newline boundary when one
sits in the last fifth of the chunk. -/
def splitLongMessage (text : List Char) (maxLen : Nat) : List (List Char) :=
  splitLongMessageAux maxLen text.length text

/-- JS `parseInt(s, 10)`: skip leading whitespace, optional sign, longest
prefix of decimal digits; `none` models `NaN`. -/
def jsParseInt (s : String) : Option Int :=
  let cs := s.toList.dropWhile (fun c => c.isWhitespace)
  let signAndRest : Int × List Char :=
    match cs with
    | '-' :: rest => (-1, rest)
    | '+' :: rest => (1, rest)
    | _ => (1, cs)
  let digits := signAndRest.2.takeWhile (fun c => c.isDigit)
  if digits.isEmpty then none
  else
    some (signAndRest.1 *
      (digits.foldl (fun acc c => 10 * acc + (c.toNat - '0'.toNat)) (0 : Nat) : Int))

/-- `parseModelIndex(indexStr, maxIndex)` from src/utils.ts lines 91-98.
`none` models the `undefined` argument; the empty string is falsy in JS, so
`!indexStr` also returns `-1` for `""`. -/
def parseModelIndex (indexStr : Option String) (maxIndex : Nat) : Int :=
  match indexStr with
  | none => -1
  | some s =>
      if s = "" then -1
      else
        match jsParseInt s with
        | none => -1
        | some v =>
            let index := v - 1
            if index < 0 ∨ (maxIndex : Int) ≤ index then -1 else index

/-- `parseDirectoryIndex(indexStr, maxIndex)` from src/utils.ts lines
104-111 (textually identical body to `parseModelIndex`). -/
def parseDirectoryIndex (indexStr : Option String) (maxIndex : Nat) : Int :=
  match indexStr with
  | none => -1
  | some s =>
      if s = "" then -1
      else
        match jsParseInt s with
        | none => -1
        | some v =>
            let index := v - 1
            if index < 0 ∨ (maxIndex : Int) ≤ index then -1 else index

-- ### Helper lemmas for splitLongMessage

theorem jsLastIndexOf_lt_length (l : List Char) (c : Char) :
    jsLastIndexOf l c < (l.length : Int) := by
  induction l with
  | nil => simp [jsLastIndexOf]
  | cons x xs ih =>
      simp only [jsLastIndexOf, List.length_cons]
      split
      · push_cast
        omega
      · split <;> push_cast <;> omega

theorem take_append_drop_length (r : List Char) (n : Nat) :
    r.take n ++ r.drop (r.take n).length = r := by
  rw [List.length_take]
  rcases Nat.le_total n r.length with h | h
  · rw [Nat.min_eq_left h, List.take_append_drop]
  · rw [Nat.min_eq_right h, List.drop_length, List.append_nil,
      List.take_of_length_le h]

theorem splitChunkLen_pos (maxLen : Nat) (hmax : 1 ≤ maxLen) (r : List Char) :
    1 ≤ splitChunkLen maxLen r ∧ splitChunkLen maxLen r ≤ maxLen := by
  simp only [splitChunkLen]
  split
  · split
    · rename_i hlong hnl
      have hlt : jsLastIndexOf (r.take maxLen) '\n' <
          ((r.take maxLen).length : Int) := jsLastIndexOf_lt_length _ _
      have hlen : (r.take maxLen).length = maxLen := by
        rw [List.length_take]
        omega
      rw [hlen] at hlt
      omega
    · omega
  · omega

theorem splitLongMessageAux_spec (maxLen : Nat) (hmax : 1 ≤ maxLen) :
    ∀ fuel remaining, remaining.length ≤ fuel →
      (splitLongMessageAux maxLen fuel remaining).flatten = remaining ∧
      ∀ ch ∈ splitLongMessageAux maxLen fuel remaining,
        ch ≠ [] ∧ ch.length ≤ maxLen := by
  intro fuel
  induction fuel with
  | zero =>
      intro remaining hr
      have : remaining = [] := List.length_eq_zero.mp (Nat.le_zero.mp hr)
      subst this
      simp [splitLongMessageAux]
  | succ fuel ih =>
      intro remaining hr
      cases remaining with
      | nil => simp [splitLongMessageAux]
      | cons a as =>
          set r : List Char := a :: as with hrdef
          obtain ⟨hk1, hkmax⟩ := splitChunkLen_pos maxLen hmax r
          set k := splitChunkLen maxLen r with hkdef
          have heq : splitLongMessageAux maxLen (fuel + 1) r =
              r.take k :: splitLongMessageAux maxLen fuel
                (r.drop (r.take k).length) := by
            rw [hrdef]
            rfl
          have hrlen : 1 ≤ r.length := by simp [hrdef]
          have htklen : (r.take k).length = min k r.length := List.length_take ..
          have htkpos : 1 ≤ (r.take k).length := by omega
          have hdrop : (r.drop (r.take k).length).length ≤ fuel := by
            rw [List.length_drop]
            omega
          obtain ⟨hjoin, hchunks⟩ := ih (r.drop (r.take k).length) hdrop
          constructor
          · rw [heq, List.flatten_cons, hjoin, take_append_drop_length]
          · intro ch hch
            rw [heq, List.mem_cons] at hch
            rcases hch with hch | hch
            · subst hch
              refine ⟨?_, ?_⟩
              · intro hnil
                rw [hnil] at htkpos
                simp at htkpos
              · rw [htklen]
                omega
            · exact hchunks ch hch

-- ### Claim C9 / C10 theorems

/-- C9: for every string `text` and every `maxLen ≥ 1`, `splitLongMessage`
terminates (it is a total function whose fuel `text.length` is shown
sufficient by the round-trip) and returns non-empty chunks of length at most
`maxLen` whose concatenation is exactly `text`. -/
theorem splitLongMessage_roundtrip (text : List Char) (maxLen : Nat)
    (hmax : 1 ≤ maxLen) :
    (splitLongMessage text maxLen).flatten = text ∧
    ∀ ch ∈ splitLongMessage text maxLen, ch ≠ [] ∧ ch.length ≤ maxLen :=
  splitLongMessageAux_spec maxLen hmax text.length text (Nat.le_refl _)

theorem splitLongMessage_roundtrip_witness :
    1 ≤ 4 ∧
    ((splitLongMessage "hello\nworld".toList 4).flatten = "hello\nworld".toList ∧
      ∀ ch ∈ splitLongMessage "hello\nworld".toList 4, ch ≠ [] ∧ ch.length ≤ 4) :=
  ⟨by decide, splitLongMessage_roundtrip "hello\nworld".toList 4 (by decide)⟩

/-- C10: `parseModelIndex` and `parseDirectoryIndex` agree, and each returns
either `-1` or an index `i` with `0 ≤ i < maxIndex` that equals the decimal
value parsed from `indexStr` minus one, so a selection can never index
outside the model/directory list. -/
theorem parse_index_in_range (indexStr : Option String) (maxIndex : Nat) :
    parseDirectoryIndex indexStr maxIndex = parseModelIndex indexStr maxIndex ∧
    (parseModelIndex indexStr maxIndex = -1 ∨
      (0 ≤ parseModelIndex indexStr maxIndex ∧
        parseModelIndex indexStr maxIndex < (maxIndex : Int) ∧
        ∃ s v, indexStr = some s ∧ jsParseInt s = some v ∧
          parseModelIndex indexStr maxIndex = v - 1)) := by
  refine ⟨rfl, ?_⟩
  match indexStr with
  | none => exact Or.inl rfl
  | some s =>
      by_cases hs : s = ""
      · exact Or.inl (by simp [parseModelIndex, hs])
      · cases hv : jsParseInt s with
        | none => exact Or.inl (by simp [parseModelIndex, hs, hv])
        | some v =>
            have hbody : parseModelIndex (some s) maxIndex =
                if v - 1 < 0 ∨ (maxIndex : Int) ≤ v - 1 then -1 else v - 1 := by
              simp only [parseModelIndex, if_neg hs, hv]
            by_cases hr : v - 1 < 0 ∨ (maxIndex : Int) ≤ v - 1
            · exact Or.inl (by rw [hbody, if_pos hr])
            · right
              have hval : parseModelIndex (some s) maxIndex = v - 1 := by
                rw [hbody, if_neg hr]
              refine ⟨?_, ?_, s, v, rfl, hv, hval⟩ <;> rw [hval] <;> omega

-- ## Chat-session state machine (src/index.ts)

/-- Pool of emojis to assign to sessions (src/index.ts line 125,
src/utils.ts line 220). -/
def sessionEmojis : List String :=
  ["🔵", "🟢", "🔴", "🟣", "🟡", "🟠", "✨", "🔥", "🌟", "🚀", "🧠", "🔔",
   "🎯", "✅", "🔚", "⚡️", "🌈", "🍀"]

/-- Default model for Copilot sessions when `COPILOT_MODEL` is unset
(src/index.ts line 121). -/
def defaultModel : String := "gpt-5-mini"

/-- Events emitted by a Copilot session: the event kinds
`handleSessionEvent` dispatches on, payloads abstracted to what the
sequencing claims need. -/
inductive SessionEvent where
  | assistantMessage (content : String)
  | assistantMessageDelta (delta : String)
  | toolExecutionStart (id : String)
  | toolExecutionComplete (id : String)
  | sessionIdle
  | other (tag : String)
deriving DecidableEq

/-- Per-chat conversation state (`interface ChatState`, src/index.ts lines
131-162). The Copilot client/session handles are abstracted to their
presence (`Option Unit`). Optional (`?:`) fields keep `undefined` as
`none`, except flags that JS only reads for truthiness (`awaitingFinal`,
`pendingCompletion`, `processingEvents`), where `undefined` and `false`
behave identically and a `Bool` is used. Fields none of the verified
claims touch (`toolStartMessages`, `recentModels`, `availableDirs`) are
omitted. -/
structure ChatState where
  client : Option Unit
  session : Option Unit
  dir : Option String
  model : String
  busy : Bool
  queue : List String
  resetting : Bool
  images : Option (List String)
  emoji : Option String
  currentPrompt : Option String
  awaitingFinal : Bool
  pendingCompletion : Bool
  eventQueue : Option (List SessionEvent)
  processingEvents : Bool
  originalMessageId : Option Nat
  turnCount : Option Nat
deriving DecidableEq

/-- `chatStates.get(chatId)` over the insertion-ordered association list
modelling the global `Map<number, ChatState>`. -/
def lookupState : List (Nat × ChatState) → Nat → Option ChatState
  | [], _ => none
  | (a, b) :: t, chatId => if a = chatId then some b else lookupState t chatId

/-- `chatStates.set(chatId, st)`: overwrite the existing entry in place
(keys are unique in a JS `Map`), append when the key is new. -/
def setState : List (Nat × ChatState) → Nat → ChatState → List (Nat × ChatState)
  | [], chatId, st => [(chatId, st)]
  | (a, b) :: t, chatId, st =>
      if a = chatId then (chatId, st) :: t else (a, b) :: setState t chatId st

/-- The `used` set built inside `pickSessionEmoji` (src/index.ts lines
206-209): every emoji recorded in some chat's state. -/
def usedEmojis (m : List (Nat × ChatState)) : List String :=
  m.filterMap (fun p => p.2.emoji)

/-- `pickSessionEmoji` (src/index.ts lines 205-215): the first pool emoji
not used by any chat's state, else a pseudo-random pool member (`rand`
models the `Math.floor(Math.random() * length)` draw via `rand % length`). -/
def pickSessionEmoji (m : List (Nat × ChatState)) (rand : Nat) : String :=
  match sessionEmojis.find? (fun e => !((usedEmojis m).contains e)) with
  | some e => e
  | none => sessionEmojis.getD (rand % sessionEmojis.length) ""

/-- `appendImagesToPrompt` (src/index.ts lines 482-486): append the stored
image URLs as a numbered reference list. -/
def appendImagesToPrompt (prompt : String) (images : Option (List String)) : String :=
  match images with
  | none => prompt
  | some [] => prompt
  | some imgs =>
      let list := String.intercalate "\n"
        (imgs.enum.map (fun p => toString (p.1 + 1) ++ ". " ++ p.2))
      prompt ++ "\n\n參考圖片：\n" ++ list

/-- The fresh `ChatState` created by `startSession` for an unknown chat
(src/index.ts lines 621-634); its emoji is picked before the entry joins
the map. -/
def freshChatState (m : List (Nat × ChatState)) (model? : Option String)
    (rand : Nat) : ChatState :=
  { client := none, session := none, dir := none,
    model := model?.getD defaultModel, busy := false, queue := [],
    resetting := false, images := some [],
    emoji := some (pickSessionEmoji m rand),
    currentPrompt := none, awaitingFinal := false, pendingCompletion := false,
    eventQueue := none, processingEvents := false,
    originalMessageId := none, turnCount := none }

/-- `startSession` up to the directory switch (src/index.ts lines 615-675):
look up or create the chat state, apply an explicitly requested model, then
destroy the old session and stop the old client — teardown errors are
swallowed, so in the model teardown always leaves both handles null. -/
def startEnsureState (m : List (Nat × ChatState)) (chatId : Nat)
    (model? : Option String) (rand₀ : Nat) : List (Nat × ChatState) :=
  match lookupState m chatId with
  | none =>
      let st := freshChatState m model? rand₀
      setState m chatId { st with session := none, client := none }
  | some st =>
      let st₁ :=
        match model? with
        | some mo => { st with model := mo }
        | none => st
      setState m chatId { st₁ with session := none, client := none }

/-- Which awaited step of `startSession` throws, if any. -/
inductive StartFailure where
  | chdirFail
  | createFail
deriving DecidableEq

/-- Outcome of `startSession`: the chat-state map after the call (JS
mutations persist even when the rest of the function throws) and the
re-raised error, if any. -/
structure StartResult where
  states : List (Nat × ChatState)
  error : Option StartFailure
deriving DecidableEq

/-- `startSession(chatId, directory, model?)` (src/index.ts lines 615-731).
`outcome` says which awaited step, if any, throws; `rand₀`, `rand₁` feed the
two possible `pickSessionEmoji` draws (fresh-state creation, success-path
refresh). On success the state is reset per lines 703-716. -/
def startSession (m : List (Nat × ChatState)) (chatId : Nat)
    (directory : String) (model? : Option String)
    (outcome : Option StartFailure) (rand₀ rand₁ : Nat) : StartResult :=
  let m₁ := startEnsureState m chatId model? rand₀
  match outcome with
  | some f => ⟨m₁, some f⟩
  | none =>
      match lookupState m₁ chatId with
      | none => ⟨m₁, none⟩
      | some st =>
          let st₁ := { st with
            client := some (), session := some (),
            dir := some directory, busy := false, queue := [],
            resetting := false, awaitingFinal := false,
            pendingCompletion := false,
            eventQueue := some ([] : List SessionEvent),
            processingEvents := false,
            emoji := some (pickSessionEmoji m₁ rand₁) }
          ⟨setState m₁ chatId st₁, none⟩

/-- User-visible outcome of the `/reset` command handler. -/
inductive ResetReply where
  | noSession
  | success
  | noDirectory
  | resetFailed
deriving DecidableEq

/-- The `/reset` command handler (src/index.ts lines 1349-1424) for an owner
chat: require a live session; clear the queue, set `resetting`, force `busy`
off, zero the turn count; abort the old session (best-effort, abort errors
swallowed); call `startSession` with the recorded directory and model. A
`startSession` error is caught and reported — the catch block does not touch
`resetting`. -/
def resetHandler (m : List (Nat × ChatState)) (chatId : Nat)
    (outcome : Option StartFailure) (rand₀ rand₁ : Nat) :
    List (Nat × ChatState) × ResetReply :=
  match lookupState m chatId with
  | none => (m, ResetReply.noSession)
  | some st =>
      if st.session.isNone then (m, ResetReply.noSession)
      else
        let currentDir := st.dir
        let currentModel := st.model
        let st₁ := { st with
          queue := [], resetting := true, busy := false,
          currentPrompt := none, awaitingFinal := false,
          pendingCompletion := false, turnCount := some 0 }
        let m₁ := setState m chatId st₁
        match currentDir with
        | some d =>
            let r := startSession m₁ chatId d (some currentModel) outcome rand₀ rand₁
            match r.error with
            | none => (r.states, ResetReply.success)
            | some _ => (r.states, ResetReply.resetFailed)
        | none => (m₁, ResetReply.noDirectory)

/-- JS `captionOrText.startsWith('/')` (src/index.ts line 1866): the
message's first character is a slash. -/
def startsWithSlash (text : String) : Bool :=
  match text.toList with
  | [] => false
  | c :: _ => c = '/'

/-- User-visible outcome of the `bot.on('message')` handler for a text
message. -/
inductive MsgAction where
  | ignored
  | rejectNoSession
  | rejectResetting
  | queued
  | sent
  | sendFailed
deriving DecidableEq

/-- Result of the message handler: the chat state afterwards (`none` when
the chat still has no state), the prompts passed to `session.send` (the
send is invoked even when it then throws), and the reply tag. -/
structure MsgResult where
  state : Option ChatState
  sessionSends : List String
  action : MsgAction
deriving DecidableEq

/-- The text-prompt path of `bot.on('message')` (src/index.ts lines
1861-1912), for an owner message without a photo attachment: ignore empty
text and slash commands; reject when there is no state, no session or no
directory; reject while `resetting`; queue the raw text while `busy`;
otherwise mark busy, record the prompt, bump the turn count and send the
image-augmented prompt — rolling `busy`/`currentPrompt`/`awaitingFinal`
back when the send throws (`sendOk = false`). -/
def handleTextMessage (state? : Option ChatState) (text : String)
    (msgId : Nat) (sendOk : Bool) : MsgResult :=
  if text = "" then ⟨state?, [], MsgAction.ignored⟩
  else if startsWithSlash text then ⟨state?, [], MsgAction.ignored⟩
  else
    match state? with
    | none => ⟨none, [], MsgAction.rejectNoSession⟩
    | some s =>
        if s.session.isNone ∨ s.dir.isNone then
          ⟨some s, [], MsgAction.rejectNoSession⟩
        else if s.resetting then
          ⟨some s, [], MsgAction.rejectResetting⟩
        else
          let promptToSend := appendImagesToPrompt text s.images
          if s.busy then
            ⟨some { s with queue := s.queue ++ [text] }, [], MsgAction.queued⟩
          else
            let s₁ := { s with
              busy := true, currentPrompt := some text,
              awaitingFinal := true, pendingCompletion := false,
              originalMessageId := some msgId,
              turnCount := some (s.turnCount.getD 0 + 1) }
            if sendOk then ⟨some s₁, [promptToSend], MsgAction.sent⟩
            else
              ⟨some { s₁ with
                busy := false, currentPrompt := none,
                awaitingFinal := false }, [promptToSend], MsgAction.sendFailed⟩

/-- The `session.idle` case of `handleSessionEvent` (src/index.ts lines
971-1014): clear `busy`/`currentPrompt`; with an empty queue defer or emit
the completion notice; with a non-empty queue shift the head and — when it
is a non-empty string (`nextPrompt` is truthy) and a session is live — send
it augmented with the stored image context, marking the chat busy again; a
failed send (`sendOk = false`) rolls `busy`/`currentPrompt`/`awaitingFinal`
back. Returns the new state and the prompts passed to `session.send`. -/
def handleSessionIdle (s : ChatState) (sendOk : Bool) : ChatState × List String :=
  let s₁ := { s with busy := false, currentPrompt := none }
  match s₁.queue with
  | [] =>
      if s₁.awaitingFinal then ({ s₁ with pendingCompletion := true }, [])
      else (s₁, [])
  | nextPrompt :: rest =>
      let s₂ := { s₁ with queue := rest }
      if nextPrompt ≠ "" ∧ s₂.session.isSome then
        let s₃ := { s₂ with
          busy := true, currentPrompt := some nextPrompt,
          awaitingFinal := true, pendingCompletion := false,
          turnCount := some (s₂.turnCount.getD 0 + 1) }
        let promptToSend := appendImagesToPrompt nextPrompt s₃.images
        if sendOk then (s₃, [promptToSend])
        else
          ({ s₃ with
            busy := false, currentPrompt := none,
            awaitingFinal := false }, [promptToSend])
      else (s₂, [])

/-- Fold `handleTextMessage` over several prompts arriving at the same
chat, collecting every prompt passed to `session.send`. -/
def submitMany (msgId : Nat) (sendOk : Bool) :
    ChatState → List String → ChatState × List String
  | s, [] => (s, [])
  | s, p :: ps =>
      let r := handleTextMessage (some s) p msgId sendOk
      let s₁ := r.state.getD s
      let rest := submitMany msgId sendOk s₁ ps
      (rest.1, r.sessionSends ++ rest.2)

/-- Iterate `handleSessionIdle` over `k` successive idle events (each
assistant turn ending in one), with every `session.send` succeeding,
collecting the prompts sent in order. -/
def idleMany : ChatState → Nat → ChatState × List String
  | s, 0 => (s, [])
  | s, k + 1 =>
      let r := handleSessionIdle s true
      let rest := idleMany r.1 k
      (rest.1, r.2 ++ rest.2)

/-- The `while` loop of `processEventQueue` (src/index.ts lines 770-777):
shift the next event and handle it inside try/catch — an error is logged
and the loop continues. The fuel is the number of iterations the loop can
still make; the returned log pairs each handled event with whether its
handler completed without throwing. -/
def drainEventQueue (handler : SessionEvent → Except String Unit) :
    Nat → ChatState → ChatState × List (SessionEvent × Bool)
  | 0, s => (s, [])
  | fuel + 1, s =>
      match s.eventQueue.getD [] with
      | [] => (s, [])
      | e :: rest =>
          let s₁ := { s with eventQueue := some rest }
          let ok :=
            match handler e with
            | Except.ok _ => true
            | Except.error _ => false
          let r := drainEventQueue handler fuel s₁
          (r.1, (e, ok) :: r.2)

/-- `processEventQueue` (src/index.ts lines 762-780): bail out when the
state has no event queue or a drain is already running
(`processingEvents`); otherwise set the flag, drain the whole queue with
per-event errors caught, then clear the flag. -/
def processEventQueue (handler : SessionEvent → Except String Unit)
    (s : ChatState) : ChatState × List (SessionEvent × Bool) :=
  match s.eventQueue with
  | none => (s, [])
  | some q =>
      if s.processingEvents then (s, [])
      else
        let r := drainEventQueue handler q.length
          { s with processingEvents := true }
        ({ r.1 with processingEvents := false }, r.2)

/-- `enqueueSessionEvent` (src/index.ts lines 739-757): initialize the
queue if needed, push the event, then trigger `processEventQueue`. -/
def enqueueSessionEvent (handler : SessionEvent → Except String Unit)
    (s : ChatState) (e : SessionEvent) : ChatState × List (SessionEvent × Bool) :=
  processEventQueue handler
    { s with eventQueue := some (s.eventQueue.getD [] ++ [e]) }

-- ### Helper lemmas for the chat-state map and emoji pool

theorem lookupState_setState_self (m : List (Nat × ChatState)) (k : Nat)
    (v : ChatState) : lookupState (setState m k v) k = some v := by
  induction m with
  | nil => simp [setState, lookupState]
  | cons hd t ih =>
      obtain ⟨a, b⟩ := hd
      by_cases h : a = k
      · simp [setState, h, lookupState]
      · simp [setState, h, lookupState, ih]

theorem mem_setState_ne (m : List (Nat × ChatState)) (k : Nat) (v : ChatState)
    (pr : Nat × ChatState) (hpr : pr ∈ setState m k v) (hne : pr.1 ≠ k) :
    pr ∈ m := by
  induction m with
  | nil =>
      simp [setState] at hpr
      rw [hpr] at hne
      simp at hne
  | cons hd t ih =>
      obtain ⟨a, b⟩ := hd
      by_cases h : a = k
      · simp only [setState, if_pos h] at hpr
        rcases List.mem_cons.mp hpr with hh | hh
        · rw [hh] at hne
          simp at hne
        · exact List.mem_cons_of_mem _ hh
      · simp only [setState, if_neg h] at hpr
        rcases List.mem_cons.mp hpr with hh | hh
        · exact hh ▸ List.mem_cons_self _ _
        · exact List.mem_cons_of_mem _ (ih hh)

theorem mem_usedEmojis (m : List (Nat × ChatState)) (pr : Nat × ChatState)
    (hpr : pr ∈ m) (em : String) (hem : pr.2.emoji = some em) :
    em ∈ usedEmojis m :=
  List.mem_filterMap.mpr ⟨pr, hpr, hem⟩

theorem getD_mem_of_lt (l : List String) (n : Nat) (d : String)
    (h : n < l.length) : l.getD n d ∈ l := by
  rw [List.getD_eq_getElem?_getD, List.getElem?_eq_getElem h]
  simp

theorem pickSessionEmoji_mem (m : List (Nat × ChatState)) (rand : Nat) :
    pickSessionEmoji m rand ∈ sessionEmojis := by
  unfold pickSessionEmoji
  split
  · rename_i e hf
    exact List.mem_of_find?_eq_some hf
  · exact getD_mem_of_lt _ _ _ (Nat.mod_lt _ (by decide))

theorem pickSessionEmoji_not_used (m : List (Nat × ChatState)) (rand : Nat)
    (h : ∃ x ∈ sessionEmojis, x ∉ usedEmojis m) :
    pickSessionEmoji m rand ∉ usedEmojis m := by
  obtain ⟨x, hx, hxu⟩ := h
  unfold pickSessionEmoji
  split
  · rename_i e hf
    have hpred := List.find?_some hf
    rw [Bool.not_eq_true'] at hpred
    simpa using hpred
  · rename_i hf
    exfalso
    have hall := List.find?_eq_none.mp hf x hx
    rw [Bool.not_eq_true] at hall
    exact hxu (by simpa using hall)

theorem lookupState_startEnsureState (m : List (Nat × ChatState)) (chatId : Nat)
    (model? : Option String) (rand₀ : Nat) :
    ∃ st, lookupState (startEnsureState m chatId model? rand₀) chatId = some st := by
  unfold startEnsureState
  split
  · exact ⟨_, lookupState_setState_self ..⟩
  · exact ⟨_, lookupState_setState_self ..⟩

-- ### Claim C8

/-- C8: when `startSession(chatId, directory, model?)` succeeds, the chat
state afterwards has `busy = false`, an empty prompt queue,
`resetting = false`, an empty event queue, a live session handle with the
working directory set to `directory`, and an emoji marker from the pool
that — whenever some pool emoji is unused at pick time — is not in use by
any other chat's state; the pick's fallback (`rand₁`) only ever yields a
pool member. -/
theorem startSession_success_state (m : List (Nat × ChatState)) (chatId : Nat)
    (directory : String) (model? : Option String) (rand₀ rand₁ : Nat) :
    (startSession m chatId directory model? none rand₀ rand₁).error = none ∧
    ∃ st, lookupState
        (startSession m chatId directory model? none rand₀ rand₁).states chatId
        = some st ∧
      st.busy = false ∧ st.queue = [] ∧ st.resetting = false ∧
      st.eventQueue = some [] ∧ st.session.isSome = true ∧
      st.dir = some directory ∧
      ∃ em, st.emoji = some em ∧ em ∈ sessionEmojis ∧
        ((∃ x ∈ sessionEmojis,
            x ∉ usedEmojis (startEnsureState m chatId model? rand₀)) →
          ∀ pr ∈ (startSession m chatId directory model? none rand₀ rand₁).states,
            pr.1 ≠ chatId → pr.2.emoji ≠ some em) := by
  obtain ⟨st₀, hst₀⟩ := lookupState_startEnsureState m chatId model? rand₀
  have hss : startSession m chatId directory model? none rand₀ rand₁ =
      ⟨setState (startEnsureState m chatId model? rand₀) chatId
        { st₀ with
          client := some (), session := some (),
          dir := some directory, busy := false, queue := [],
          resetting := false, awaitingFinal := false,
          pendingCompletion := false,
          eventQueue := some ([] : List SessionEvent),
          processingEvents := false,
          emoji := some (pickSessionEmoji
            (startEnsureState m chatId model? rand₀) rand₁) }, none⟩ := by
    simp only [startSession]
    rw [hst₀]
  rw [hss]
  refine ⟨rfl, _, lookupState_setState_self .., rfl, rfl, rfl, rfl, rfl, rfl,
    pickSessionEmoji (startEnsureState m chatId model? rand₀) rand₁, rfl,
    pickSessionEmoji_mem .., ?_⟩
  intro hex pr hpr hne heq
  exact pickSessionEmoji_not_used _ rand₁ hex
    (mem_usedEmojis _ pr (mem_setState_ne _ _ _ _ hpr hne) _ heq)

theorem startSession_success_state_witness :
    (startSession [] 1 "/w" none none 0 0).error = none ∧
    ∃ st, lookupState (startSession [] 1 "/w" none none 0 0).states 1 = some st ∧
      st.busy = false ∧ st.queue = [] ∧ st.resetting = false ∧
      st.eventQueue = some [] ∧ st.session.isSome = true ∧
      st.dir = some "/w" ∧
      ∃ em, st.emoji = some em ∧ em ∈ sessionEmojis ∧
        ((∃ x ∈ sessionEmojis, x ∉ usedEmojis (startEnsureState [] 1 none 0)) →
          ∀ pr ∈ (startSession [] 1 "/w" none none 0 0).states,
            pr.1 ≠ 1 → pr.2.emoji ≠ some em) :=
  startSession_success_state [] 1 "/w" none 0 0

-- ### Claim C1

/-- A chat with a live session in directory `/w`, mid-task. -/
def resetDemoState : ChatState :=
  { client := some (), session := some (), dir := some "/w",
    model := "gpt-5-mini", busy := true, queue := ["queued task"],
    resetting := false, images := some [], emoji := some "🔵",
    currentPrompt := some "current task", awaitingFinal := true,
    pendingCompletion := false, eventQueue := some [],
    processingEvents := false, originalMessageId := some 7,
    turnCount := some 3 }

/-- C1 (refuted — code bug): for the chat above, the `/reset` handler
clears `resetting` on the success path, but when `startSession` throws
(here: the directory switch fails) the handler's catch block only reports
the error and leaves `resetting = true`, locking the chat out of new
prompts; the spec requires `resetting = false` on both paths (and the
sibling `cmd_reset` callback handler does clear it in its catch). -/
theorem reset_failure_leaves_resetting_stuck :
    ((lookupState (resetHandler [(1, resetDemoState)] 1 none 0 0).1 1).map
        (fun st => st.resetting) = some false) ∧
    ((lookupState
        (resetHandler [(1, resetDemoState)] 1
          (some StartFailure.chdirFail) 0 0).1 1).map
        (fun st => st.resetting) = some true) ∧
    (resetHandler [(1, resetDemoState)] 1
        (some StartFailure.chdirFail) 0 0).2 = ResetReply.resetFailed :=
  ⟨rfl, rfl, rfl⟩

-- ### Claim C2

theorem isNone_eq_false_of_isSome {α : Type} (o : Option α)
    (h : o.isSome = true) : o.isNone = false := by
  cases o <;> simp_all

theorem handleTextMessage_resetting (s : ChatState) (text : String)
    (msgId : Nat) (sendOk : Bool) (hreset : s.resetting = true)
    (hsess : s.session.isSome) (hdir : s.dir.isSome) (ht : text ≠ "")
    (hcmd : ¬ startsWithSlash text) :
    handleTextMessage (some s) text msgId sendOk =
      ⟨some s, [], MsgAction.rejectResetting⟩ := by
  simp [handleTextMessage, ht, hcmd, isNone_eq_false_of_isSome _ hsess,
    isNone_eq_false_of_isSome _ hdir, hreset]

theorem handleTextMessage_no_session (s : ChatState) (text : String)
    (msgId : Nat) (sendOk : Bool)
    (hns : s.session.isNone = true ∨ s.dir.isNone = true) (ht : text ≠ "")
    (hcmd : ¬ startsWithSlash text) :
    handleTextMessage (some s) text msgId sendOk =
      ⟨some s, [], MsgAction.rejectNoSession⟩ := by
  simp only [handleTextMessage, if_neg ht]
  rw [if_neg (by simpa using hcmd), if_pos hns]

/-- A chat left by a failed `/reset`: `resetting` stuck true, session
handle torn down, directory still recorded. -/
def resettingNoSessionState : ChatState :=
  { client := none, session := none, dir := some "/w",
    model := "gpt-5-mini", busy := false, queue := [], resetting := true,
    images := some [], emoji := some "🟤", currentPrompt := none,
    awaitingFinal := false, pendingCompletion := false,
    eventQueue := some [], processingEvents := false,
    originalMessageId := none, turnCount := some 0 }

/-- C2 counterexample: a chat whose state has `resetting = true` but a null
session handle (exactly what a failed `/reset`, or the window while
`startSession` is re-creating the session, leaves behind) answers a prompt
with the "no active session" rejection, not the claimed "please wait"
one — the no-session guard runs first. -/
theorem resetting_prompt_not_always_please_wait :
    resettingNoSessionState.resetting = true ∧
    (handleTextMessage (some resettingNoSessionState) "hello" 5 true).action =
      MsgAction.rejectNoSession ∧
    (handleTextMessage (some resettingNoSessionState) "hello" 5 true).action ≠
      MsgAction.rejectResetting :=
  ⟨rfl, rfl, by decide⟩

/-- C2 (amended): a prompt submitted while `resetting = true` always leaves
the chat state unchanged, passes nothing to `session.send` and is never
queued (dropped, not deferred — so it also cannot be sent once resetting
completes); the rejection shown is "please wait" whenever the chat still
has a session handle and directory, and "no active session" when the
session handle or directory is missing (mid-reset or after a failed
reset). -/
theorem resetting_rejects_prompt (s : ChatState) (text : String) (msgId : Nat)
    (sendOk : Bool) (hreset : s.resetting = true) (ht : text ≠ "")
    (hcmd : ¬ startsWithSlash text) :
    (handleTextMessage (some s) text msgId sendOk).state = some s ∧
    (handleTextMessage (some s) text msgId sendOk).sessionSends = [] ∧
    (s.session.isSome = true → s.dir.isSome = true →
      handleTextMessage (some s) text msgId sendOk =
        ⟨some s, [], MsgAction.rejectResetting⟩) ∧
    (s.session.isNone = true ∨ s.dir.isNone = true →
      handleTextMessage (some s) text msgId sendOk =
        ⟨some s, [], MsgAction.rejectNoSession⟩) := by
  by_cases hsess : s.session.isSome = true
  · by_cases hdir : s.dir.isSome = true
    · have heq := handleTextMessage_resetting s text msgId sendOk hreset
        hsess hdir ht hcmd
      rw [heq]
      refine ⟨rfl, rfl, fun _ _ => rfl, fun hc => ?_⟩
      rcases hc with hc | hc
      · rw [isNone_eq_false_of_isSome _ hsess] at hc
        exact absurd hc (by simp)
      · rw [isNone_eq_false_of_isSome _ hdir] at hc
        exact absurd hc (by simp)
    · have hdirn : s.dir.isNone = true :=
        Option.isNone_iff_eq_none.mpr (Option.not_isSome_iff_eq_none.mp hdir)
      have heq := handleTextMessage_no_session s text msgId sendOk
        (Or.inr hdirn) ht hcmd
      rw [heq]
      exact ⟨rfl, rfl, fun _ hd => absurd hd hdir, fun _ => rfl⟩
  · have hsessn : s.session.isNone = true :=
      Option.isNone_iff_eq_none.mpr (Option.not_isSome_iff_eq_none.mp hsess)
    have heq := handleTextMessage_no_session s text msgId sendOk
      (Or.inl hsessn) ht hcmd
    rw [heq]
    exact ⟨rfl, rfl, fun hs => absurd hs hsess, fun _ => rfl⟩

/-- A chat state mid-reset with its session still live. -/
def resettingDemoState : ChatState :=
  { client := some (), session := some (), dir := some "/w",
    model := "gpt-5-mini", busy := false, queue := [], resetting := true,
    images := some [], emoji := some "🟢", currentPrompt := none,
    awaitingFinal := false, pendingCompletion := false,
    eventQueue := some [], processingEvents := false,
    originalMessageId := none, turnCount := some 0 }

theorem resetting_rejects_prompt_witness :
    (resettingDemoState.resetting = true ∧
      ("hello" : String) ≠ "" ∧ ¬ startsWithSlash "hello") ∧
    ((handleTextMessage (some resettingDemoState) "hello" 5 true).state =
        some resettingDemoState ∧
    (handleTextMessage (some resettingDemoState) "hello" 5 true).sessionSends =
        [] ∧
    (resettingDemoState.session.isSome = true →
      resettingDemoState.dir.isSome = true →
      handleTextMessage (some resettingDemoState) "hello" 5 true =
        ⟨some resettingDemoState, [], MsgAction.rejectResetting⟩) ∧
    (resettingDemoState.session.isNone = true ∨
        resettingDemoState.dir.isNone = true →
      handleTextMessage (some resettingDemoState) "hello" 5 true =
        ⟨some resettingDemoState, [], MsgAction.rejectNoSession⟩)) :=
  ⟨⟨rfl, by decide, by decide⟩,
    resetting_rejects_prompt resettingDemoState "hello" 5 true rfl
      (by decide) (by decide)⟩

-- ### Claim C6

/-- C6: with a live session and directory, `resetting = false` and
`busy = false`, submitting a prompt passes exactly the image-augmented
prompt text to `session.send`; when the send resolves the chat is left
busy with `currentPrompt` recorded and the turn count bumped by one, and
when the send throws the busy/current-prompt/awaiting-final state is
rolled back and the failure is surfaced (`MsgAction.sendFailed`). -/
theorem idle_prompt_dispatch (s : ChatState) (text : String) (msgId : Nat)
    (sendOk : Bool) (hsess : s.session.isSome) (hdir : s.dir.isSome)
    (hreset : s.resetting = false) (hbusy : s.busy = false)
    (ht : text ≠ "") (hcmd : ¬ startsWithSlash text) :
    (handleTextMessage (some s) text msgId sendOk).sessionSends =
      [appendImagesToPrompt text s.images] ∧
    (sendOk = true →
      handleTextMessage (some s) text msgId sendOk =
        ⟨some { s with
          busy := true, currentPrompt := some text,
          awaitingFinal := true, pendingCompletion := false,
          originalMessageId := some msgId,
          turnCount := some (s.turnCount.getD 0 + 1) },
          [appendImagesToPrompt text s.images], MsgAction.sent⟩) ∧
    (sendOk = false →
      handleTextMessage (some s) text msgId sendOk =
        ⟨some { s with
          busy := false, currentPrompt := none,
          awaitingFinal := false, pendingCompletion := false,
          originalMessageId := some msgId,
          turnCount := some (s.turnCount.getD 0 + 1) },
          [appendImagesToPrompt text s.images], MsgAction.sendFailed⟩) := by
  refine ⟨?_, ?_, ?_⟩
  · cases sendOk <;>
      simp [handleTextMessage, ht, hcmd, isNone_eq_false_of_isSome _ hsess,
        isNone_eq_false_of_isSome _ hdir, hreset, hbusy]
  · intro hok
    subst hok
    simp [handleTextMessage, ht, hcmd, isNone_eq_false_of_isSome _ hsess,
      isNone_eq_false_of_isSome _ hdir, hreset, hbusy]
  · intro hok
    subst hok
    simp [handleTextMessage, ht, hcmd, isNone_eq_false_of_isSome _ hsess,
      isNone_eq_false_of_isSome _ hdir, hreset, hbusy]

/-- An idle chat with a live session, one stored image, two turns done. -/
def idleDemoState : ChatState :=
  { client := some (), session := some (), dir := some "/w",
    model := "gpt-5-mini", busy := false, queue := [], resetting := false,
    images := some ["https://files.example/1.png"], emoji := some "🔴",
    currentPrompt := none, awaitingFinal := false,
    pendingCompletion := false, eventQueue := some [],
    processingEvents := false, originalMessageId := none,
    turnCount := some 2 }

theorem idle_prompt_dispatch_witness :
    (idleDemoState.session.isSome = true ∧ idleDemoState.dir.isSome = true ∧
      idleDemoState.resetting = false ∧ idleDemoState.busy = false ∧
      ("task1" : String) ≠ "" ∧ ¬ startsWithSlash "task1") ∧
    ((handleTextMessage (some idleDemoState) "task1" 9 false).sessionSends =
      [appendImagesToPrompt "task1" idleDemoState.images] ∧
    (false = true →
      handleTextMessage (some idleDemoState) "task1" 9 false =
        ⟨some { idleDemoState with
          busy := true, currentPrompt := some "task1",
          awaitingFinal := true, pendingCompletion := false,
          originalMessageId := some 9,
          turnCount := some (idleDemoState.turnCount.getD 0 + 1) },
          [appendImagesToPrompt "task1" idleDemoState.images],
          MsgAction.sent⟩) ∧
    (false = false →
      handleTextMessage (some idleDemoState) "task1" 9 false =
        ⟨some { idleDemoState with
          busy := false, currentPrompt := none,
          awaitingFinal := false, pendingCompletion := false,
          originalMessageId := some 9,
          turnCount := some (idleDemoState.turnCount.getD 0 + 1) },
          [appendImagesToPrompt "task1" idleDemoState.images],
          MsgAction.sendFailed⟩)) :=
  ⟨⟨rfl, rfl, rfl, rfl, by decide, by decide⟩,
    idle_prompt_dispatch idleDemoState "task1" 9 false rfl rfl rfl rfl
      (by decide) (by decide)⟩

-- ### Claim C7

/-- C7: a prompt arriving when the chat has no state, or a state without a
session handle or working directory, is rejected with the "no active
session" reply and the state is left exactly as it was (in particular the
prompt queue is untouched and nothing reaches `session.send`). -/
theorem no_session_rejects_prompt (state? : Option ChatState) (text : String)
    (msgId : Nat) (sendOk : Bool) (ht : text ≠ "")
    (hcmd : ¬ startsWithSlash text)
    (hns : state? = none ∨
      ∃ s, state? = some s ∧ (s.session = none ∨ s.dir = none)) :
    handleTextMessage state? text msgId sendOk =
      ⟨state?, [], MsgAction.rejectNoSession⟩ := by
  rcases hns with h | ⟨s, hs, hcase⟩
  · subst h
    simp [handleTextMessage, ht, hcmd]
  · subst hs
    have hcond : s.session.isNone = true ∨ s.dir.isNone = true := by
      rcases hcase with h | h
      · exact Or.inl (by rw [h]; rfl)
      · exact Or.inr (by rw [h]; rfl)
    simp only [handleTextMessage, if_neg ht]
    rw [if_neg (by simpa using hcmd), if_pos hcond]

theorem no_session_rejects_prompt_witness :
    (("hello" : String) ≠ "" ∧ ¬ startsWithSlash "hello" ∧
      ((none : Option ChatState) = none ∨
        ∃ s, (none : Option ChatState) = some s ∧
          (s.session = none ∨ s.dir = none))) ∧
    handleTextMessage none "hello" 3 true =
      ⟨none, [], MsgAction.rejectNoSession⟩ :=
  ⟨⟨by decide, by decide, Or.inl rfl⟩,
    no_session_rejects_prompt none "hello" 3 true (by decide) (by decide)
      (Or.inl rfl)⟩

-- ### Claim C4

theorem handleSessionIdle_cons (s : ChatState) (p : String) (rest : List String)
    (hq : s.queue = p :: rest) (hp : p ≠ "") (hs : s.session.isSome) :
    handleSessionIdle s true =
      ({ s with
        busy := true, queue := rest, currentPrompt := some p,
        awaitingFinal := true, pendingCompletion := false,
        turnCount := some (s.turnCount.getD 0 + 1) },
       [appendImagesToPrompt p s.images]) := by
  simp [handleSessionIdle, hq, hp, hs]

/-- C4: an idle event arriving with a non-empty prompt queue (whose head,
as every queued prompt, is a non-empty string) and a live session passes
exactly one prompt — the queue head augmented with the chat's stored image
context — to `session.send` before the handler returns; with the send
succeeding, the chat stays busy on that prompt and the queue has exactly
the head removed. -/
theorem idle_sends_exactly_queue_head (s : ChatState) (p : String)
    (rest : List String) (hq : s.queue = p :: rest) (hp : p ≠ "")
    (hs : s.session.isSome) :
    (handleSessionIdle s true).2 = [appendImagesToPrompt p s.images] ∧
    (handleSessionIdle s true).1.busy = true ∧
    (handleSessionIdle s true).1.currentPrompt = some p ∧
    (handleSessionIdle s true).1.queue = rest := by
  rw [handleSessionIdle_cons s p rest hq hp hs]
  exact ⟨rfl, rfl, rfl, rfl⟩

/-- A busy chat with one queued prompt. -/
def busyDemoState : ChatState :=
  { client := some (), session := some (), dir := some "/w",
    model := "gpt-5-mini", busy := true, queue := ["task2"],
    resetting := false, images := some [], emoji := some "🟣",
    currentPrompt := some "task1", awaitingFinal := true,
    pendingCompletion := false, eventQueue := some [],
    processingEvents := false, originalMessageId := some 4,
    turnCount := some 1 }

theorem idle_sends_exactly_queue_head_witness :
    (busyDemoState.queue = "task2" :: [] ∧ ("task2" : String) ≠ "" ∧
      busyDemoState.session.isSome = true) ∧
    ((handleSessionIdle busyDemoState true).2 =
      [appendImagesToPrompt "task2" busyDemoState.images] ∧
    (handleSessionIdle busyDemoState true).1.busy = true ∧
    (handleSessionIdle busyDemoState true).1.currentPrompt = some "task2" ∧
    (handleSessionIdle busyDemoState true).1.queue = []) :=
  ⟨⟨rfl, by decide, rfl⟩,
    idle_sends_exactly_queue_head busyDemoState "task2" [] rfl (by decide) rfl⟩

-- ### Claim C3

theorem handleTextMessage_busy (s : ChatState) (p : String) (msgId : Nat)
    (sendOk : Bool) (hbusy : s.busy = true) (hreset : s.resetting = false)
    (hsess : s.session.isSome) (hdir : s.dir.isSome)
    (hp : p ≠ "") (hcmd : ¬ startsWithSlash p) :
    handleTextMessage (some s) p msgId sendOk =
      ⟨some { s with queue := s.queue ++ [p] }, [], MsgAction.queued⟩ := by
  simp [handleTextMessage, hp, hcmd, isNone_eq_false_of_isSome _ hsess,
    isNone_eq_false_of_isSome _ hdir, hreset, hbusy]

theorem submitMany_busy (msgId : Nat) (sendOk : Bool) :
    ∀ (ps : List String) (s : ChatState), s.busy = true →
      s.resetting = false → s.session.isSome → s.dir.isSome →
      (∀ p ∈ ps, p ≠ "" ∧ ¬ startsWithSlash p) →
      submitMany msgId sendOk s ps = ({ s with queue := s.queue ++ ps }, []) := by
  intro ps
  induction ps with
  | nil =>
      intro s _ _ _ _ _
      simp [submitMany]
  | cons p ps ih =>
      intro s hbusy hreset hsess hdir hps
      have hp := hps p (List.mem_cons_self ..)
      rw [submitMany,
        handleTextMessage_busy s p msgId sendOk hbusy hreset hsess hdir hp.1 hp.2]
      have hrest := ih { s with queue := s.queue ++ [p] } hbusy hreset hsess hdir
        (fun x hx => hps x (List.mem_cons_of_mem _ hx))
      simp only [Option.getD_some]
      rw [hrest]
      simp [List.append_assoc]

theorem idleMany_fifo :
    ∀ (k : Nat) (s : ChatState), s.session.isSome →
      (∀ q ∈ s.queue, q ≠ "") → k ≤ s.queue.length →
      (idleMany s k).2 =
        (s.queue.take k).map (fun p => appendImagesToPrompt p s.images) ∧
      (idleMany s k).1.queue = s.queue.drop k := by
  intro k
  induction k with
  | zero =>
      intro s _ _ _
      simp [idleMany]
  | succ k ih =>
      intro s hsess hq hk
      cases hqq : s.queue with
      | nil =>
          rw [hqq] at hk
          simp at hk
      | cons p rest =>
          have hp : p ≠ "" := hq p (by rw [hqq]; exact List.mem_cons_self ..)
          have hstep := handleSessionIdle_cons s p rest hqq hp hsess
          have hrestq : ∀ x ∈ rest, x ≠ "" :=
            fun x hx => hq x (by rw [hqq]; exact List.mem_cons_of_mem _ hx)
          have hklen : k ≤ rest.length := by
            rw [hqq] at hk
            simpa using hk
          rw [idleMany, hstep]
          obtain ⟨ih1, ih2⟩ := ih
            { s with
              busy := true, queue := rest, currentPrompt := some p,
              awaitingFinal := true, pendingCompletion := false,
              turnCount := some (s.turnCount.getD 0 + 1) }
            hsess hrestq hklen
          constructor
          · simp only [ih1, hqq]
            simp
          · simp only [ih2, hqq]
            simp

/-- C3: every prompt submitted while the chat is busy is appended to the
prompt queue with nothing sent at submission time; afterwards, `k`
successive idle events (`k` up to the queue length) deliver exactly the
first `k` queued prompts to `session.send`, in submission (FIFO) order,
one per idle event, leaving the rest queued. -/
theorem prompts_fifo (s : ChatState) (ps : List String) (msgId : Nat)
    (sendOk : Bool) (hbusy : s.busy = true) (hreset : s.resetting = false)
    (hsess : s.session.isSome) (hdir : s.dir.isSome)
    (hps : ∀ p ∈ ps, p ≠ "" ∧ ¬ startsWithSlash p)
    (hq : ∀ q ∈ s.queue, q ≠ "") :
    (submitMany msgId sendOk s ps).2 = [] ∧
    (submitMany msgId sendOk s ps).1.queue = s.queue ++ ps ∧
    ∀ k, k ≤ (s.queue ++ ps).length →
      (idleMany (submitMany msgId sendOk s ps).1 k).2 =
        ((s.queue ++ ps).take k).map
          (fun p => appendImagesToPrompt p s.images) ∧
      (idleMany (submitMany msgId sendOk s ps).1 k).1.queue =
        (s.queue ++ ps).drop k := by
  have hsub := submitMany_busy msgId sendOk ps s hbusy hreset hsess hdir hps
  rw [hsub]
  refine ⟨rfl, rfl, ?_⟩
  intro k hk
  exact idleMany_fifo k { s with queue := s.queue ++ ps } hsess
    (by
      intro x hx
      rcases List.mem_append.mp hx with h | h
      · exact hq x h
      · exact (hps x h).1)
    hk

/-- A busy chat whose queue already holds one prompt. -/
def fifoDemoState : ChatState :=
  { client := some (), session := some (), dir := some "/w",
    model := "gpt-5-mini", busy := true, queue := ["task2"],
    resetting := false, images := some [], emoji := some "🟡",
    currentPrompt := some "task1", awaitingFinal := true,
    pendingCompletion := false, eventQueue := some [],
    processingEvents := false, originalMessageId := some 2,
    turnCount := some 1 }

theorem prompts_fifo_witness :
    (fifoDemoState.busy = true ∧ fifoDemoState.resetting = false ∧
      fifoDemoState.session.isSome = true ∧ fifoDemoState.dir.isSome = true ∧
      (∀ p ∈ ["task3", "task4"], p ≠ "" ∧ ¬ startsWithSlash p) ∧
      (∀ q ∈ fifoDemoState.queue, q ≠ "")) ∧
    ((submitMany 8 true fifoDemoState ["task3", "task4"]).2 = [] ∧
    (submitMany 8 true fifoDemoState ["task3", "task4"]).1.queue =
      fifoDemoState.queue ++ ["task3", "task4"] ∧
    ∀ k, k ≤ (fifoDemoState.queue ++ ["task3", "task4"]).length →
      (idleMany (submitMany 8 true fifoDemoState ["task3", "task4"]).1 k).2 =
        ((fifoDemoState.queue ++ ["task3", "task4"]).take k).map
          (fun p => appendImagesToPrompt p fifoDemoState.images) ∧
      (idleMany (submitMany 8 true fifoDemoState ["task3", "task4"]).1 k).1.queue =
        (fifoDemoState.queue ++ ["task3", "task4"]).drop k) :=
  ⟨⟨rfl, rfl, rfl, rfl, by decide, by decide⟩,
    prompts_fifo fifoDemoState ["task3", "task4"] 8 true rfl rfl rfl rfl
      (by decide) (by decide)⟩

-- ### Claim C5

theorem drainEventQueue_spec (handler : SessionEvent → Except String Unit) :
    ∀ (fuel : Nat) (s : ChatState) (q : List SessionEvent),
      s.eventQueue = some q → q.length ≤ fuel →
      (drainEventQueue handler fuel s).2.map Prod.fst = q ∧
      (drainEventQueue handler fuel s).1 = { s with eventQueue := some [] } := by
  intro fuel
  induction fuel with
  | zero =>
      intro s q hsq hlen
      have hq : q = [] := List.length_eq_zero.mp (Nat.le_zero.mp hlen)
      subst hq
      refine ⟨by simp [drainEventQueue], ?_⟩
      show s = { s with eventQueue := some [] }
      rw [← hsq]
  | succ fuel ih =>
      intro s q hsq hlen
      cases q with
      | nil =>
          refine ⟨by simp [drainEventQueue, hsq], ?_⟩
          have : (drainEventQueue handler (fuel + 1) s).1 = s := by
            simp [drainEventQueue, hsq]
          rw [this, ← hsq]
      | cons e rest =>
          simp only [drainEventQueue, hsq, Option.getD_some]
          obtain ⟨ih1, ih2⟩ := ih { s with eventQueue := some rest } rest rfl
            (by simpa using Nat.le_of_succ_le_succ hlen)
          constructor
          · simp [ih1]
          · simpa using ih2

/-- C5: draining the event queue handles every enqueued event in exactly
arrival order — the drain runs them one after another, so no two handlers
for the same chat overlap — and a handler that throws is caught and does
not stop the remaining events from being handled; a drain triggered while
`processingEvents` is already set is a no-op (no reentrant drain), and
enqueueing appends to the queue so the new event is handled after all
earlier ones. -/
theorem events_processed_in_order (handler : SessionEvent → Except String Unit)
    (s : ChatState) (q : List SessionEvent) (e : SessionEvent)
    (hsq : s.eventQueue = some q) (hflag : s.processingEvents = false) :
    (processEventQueue handler s).2.map Prod.fst = q ∧
    (processEventQueue handler s).1 =
      { s with eventQueue := some [], processingEvents := false } ∧
    (enqueueSessionEvent handler s e).2.map Prod.fst = q ++ [e] ∧
    ∀ t : ChatState, t.processingEvents = true →
      processEventQueue handler t = (t, []) := by
  have hguard : ∀ t : ChatState, t.processingEvents = true →
      processEventQueue handler t = (t, []) := by
    intro t ht
    unfold processEventQueue
    cases htq : t.eventQueue with
    | none => rfl
    | some tq => simp [ht]
  have hmain : ∀ (u : ChatState) (uq : List SessionEvent),
      u.eventQueue = some uq → u.processingEvents = false →
      (processEventQueue handler u).2.map Prod.fst = uq ∧
      (processEventQueue handler u).1 =
        { u with eventQueue := some [], processingEvents := false } := by
    intro u uq husq huflag
    obtain ⟨hd1, hd2⟩ := drainEventQueue_spec handler uq.length
      { u with processingEvents := true } uq husq (Nat.le_refl _)
    have hpeq : processEventQueue handler u =
        ({ (drainEventQueue handler uq.length
            { u with processingEvents := true }).1 with
            processingEvents := false },
         (drainEventQueue handler uq.length
            { u with processingEvents := true }).2) := by
      unfold processEventQueue
      rw [husq]
      simp [huflag]
    refine ⟨?_, ?_⟩
    · rw [hpeq]
      exact hd1
    · rw [hpeq]
      show ({ (drainEventQueue handler uq.length
          { u with processingEvents := true }).1 with
          processingEvents := false } : ChatState) = _
      rw [hd2]
  obtain ⟨h1, h2⟩ := hmain s q hsq hflag
  refine ⟨h1, h2, ?_, hguard⟩
  have henq : enqueueSessionEvent handler s e =
      processEventQueue handler
        { s with eventQueue := some (q ++ [e]) } := by
    unfold enqueueSessionEvent
    rw [hsq]
    rfl
  rw [henq]
  exact (hmain { s with eventQueue := some (q ++ [e]) } (q ++ [e]) rfl hflag).1

/-- A handler that mirrors `handleSessionEvent` failing on one event kind:
it throws on `session.idle` and succeeds on everything else. -/
def throwingIdleHandler (e : SessionEvent) : Except String Unit :=
  match e with
  | SessionEvent.sessionIdle => Except.error "boom"
  | _ => Except.ok ()

/-- A chat state with three events queued and no drain running. -/
def eventDemoState : ChatState :=
  { client := some (), session := some (), dir := some "/w",
    model := "gpt-5-mini", busy := true, queue := [], resetting := false,
    images := some [], emoji := some "🟠", currentPrompt := some "task",
    awaitingFinal := true, pendingCompletion := false,
    eventQueue := some [SessionEvent.toolExecutionStart "t1",
      SessionEvent.sessionIdle, SessionEvent.assistantMessage "done"],
    processingEvents := false, originalMessageId := some 1,
    turnCount := some 1 }

theorem events_processed_in_order_witness :
    (eventDemoState.eventQueue = some [SessionEvent.toolExecutionStart "t1",
        SessionEvent.sessionIdle, SessionEvent.assistantMessage "done"] ∧
      eventDemoState.processingEvents = false) ∧
    ((processEventQueue throwingIdleHandler eventDemoState).2.map Prod.fst =
      [SessionEvent.toolExecutionStart "t1", SessionEvent.sessionIdle,
        SessionEvent.assistantMessage "done"] ∧
    (processEventQueue throwingIdleHandler eventDemoState).1 =
      { eventDemoState with
        eventQueue := some [], processingEvents := false } ∧
    (enqueueSessionEvent throwingIdleHandler eventDemoState
        SessionEvent.sessionIdle).2.map Prod.fst =
      [SessionEvent.toolExecutionStart "t1", SessionEvent.sessionIdle,
        SessionEvent.assistantMessage "done"] ++ [SessionEvent.sessionIdle] ∧
    ∀ t : ChatState, t.processingEvents = true →
      processEventQueue throwingIdleHandler t = (t, [])) :=
  ⟨⟨rfl, rfl⟩,
    events_processed_in_order throwingIdleHandler eventDemoState
      [SessionEvent.toolExecutionStart "t1", SessionEvent.sessionIdle,
        SessionEvent.assistantMessage "done"] SessionEvent.sessionIdle rfl rfl⟩
